import Mathlib

/-!
Verification of the AlphaverseArc poll bot (`alphaversearc_bot.py`).

The bot keeps two SQLite relations and one in-memory registry:
  * `user_points (user_id INTEGER PRIMARY KEY, username TEXT, points INTEGER)`
  * `poll_answers (poll_id TEXT, user_id INTEGER, UNIQUE(poll_id, user_id))`
  * `bot_data["active_polls"]`, a set of poll ids, absent until the first
    successful `/createpoll`.

We model the relations as lists kept in insertion (rowid) order, the
registry as `Option (List String)` (`none` = key absent from `bot_data`),
and each handler as a pure function on this state.  SQL `ORDER BY points
DESC` is modelled by Mathlib's stable `insertionSort` with the
points-descending relation.
-/

/-- Fixed award amount (`POINTS_PER_POLL = 1`). -/
def POINTS_PER_POLL : Int := 1

/-- One row of the `user_points` table. -/
structure UserRow where
  user_id : Int
  username : String
  points : Int
deriving DecidableEq

/-- Whole mutable state of the bot process: the two SQLite relations (in
rowid order) plus the in-memory `active_polls` entry of `bot_data`
(`none` when the key has never been set). -/
structure BotState where
  user_points : List UserRow
  poll_answers : List (String × Int)
  active_polls : Option (List String)
deriving DecidableEq

/-- State after `init_db()` on a fresh database and before any update:
both tables empty, `bot_data` without the `active_polls` key. -/
def initState : BotState :=
  { user_points := [], poll_answers := [], active_polls := none }

/-- `add_point`: the upsert
`INSERT INTO user_points(user_id, username, points) VALUES (?, ?, POINTS_PER_POLL)
 ON CONFLICT(user_id) DO UPDATE SET points = points + POINTS_PER_POLL,
 username = excluded.username`.
On conflict the existing row is updated in place; otherwise a fresh row is
appended (largest rowid). -/
def add_point (user_id : Int) (username : String) (rows : List UserRow) : List UserRow :=
  if rows.any (fun r => r.user_id == user_id) then
    rows.map (fun r =>
      if r.user_id = user_id then
        { r with points := r.points + POINTS_PER_POLL, username := username }
      else r)
  else
    rows ++ [{ user_id := user_id, username := username, points := POINTS_PER_POLL }]

/-- `has_answered`: `SELECT 1 FROM poll_answers WHERE poll_id = ? AND user_id = ?`
followed by `bool(fetchone())`. -/
def has_answered (poll_id : String) (user_id : Int) (ans : List (String × Int)) : Bool :=
  decide ((poll_id, user_id) ∈ ans)

/-- `mark_answered`: `INSERT OR IGNORE INTO poll_answers(poll_id, user_id)`;
the `UNIQUE(poll_id, user_id)` constraint turns a duplicate insert into a
no-op. -/
def mark_answered (poll_id : String) (user_id : Int)
    (ans : List (String × Int)) : List (String × Int) :=
  if (poll_id, user_id) ∈ ans then ans else ans ++ [(poll_id, user_id)]

/-- The `SELECT points FROM user_points WHERE user_id = ?` / `row[0] if row
else 0` read used by the `/score` handler. -/
def get_points (user_id : Int) (rows : List UserRow) : Int :=
  ((rows.find? (fun r => r.user_id == user_id)).map (fun r => r.points)).getD 0

/-- The username column of the row a `WHERE user_id = ?` lookup returns,
`none` when there is no such row. -/
def get_name (user_id : Int) (rows : List UserRow) : Option String :=
  (rows.find? (fun r => r.user_id == user_id)).map (fun r => r.username)

/-- Whether a `user_points` record for `user_id` exists. -/
def hasRecord (user_id : Int) (rows : List UserRow) : Bool :=
  rows.any (fun r => r.user_id == user_id)

/-- The active-poll set the answer handler sees:
`context.bot_data.get("active_polls", set())`. -/
def activeOf (s : BotState) : List String := s.active_polls.getD []

/-- Python `a or b` on an optional string: `None` and `""` are falsy. -/
def pyOrElse (x : Option String) (y : String) : String :=
  match x with
  | none => y
  | some v => if v = "" then y else v

/-- `handle_poll_answer`: ignore answers for polls not in `active_polls`
(absent key defaults to the empty set); ignore duplicate answers; otherwise
`mark_answered` then `add_point` with
`answer.user.username or answer.user.first_name`. -/
def handle_poll_answer (pid : String) (uid : Int) (username : Option String)
    (first_name : String) (s : BotState) : BotState :=
  if pid ∉ activeOf s then s
  else if has_answered pid uid s.poll_answers then s
  else
    { s with
      poll_answers := mark_answered pid uid s.poll_answers
      user_points := add_point uid (pyOrElse username first_name) s.user_points }

/-! ### `/createpoll` text parsing (Python string operations on `List Char`) -/

/-- Python whitespace as stripped by `str.strip()`. -/
def isPyWS (c : Char) : Bool :=
  c == ' ' || c == '\t' || c == '\n' || c == '\r' || c == '\x0b' || c == '\x0c'

/-- Python `s.strip()`. -/
def pyStrip (l : List Char) : List Char :=
  ((l.dropWhile isPyWS).reverse.dropWhile isPyWS).reverse

/-- The characters after the first occurrence of `sep`; `[]` when `sep` does
not occur.  `afterFirstSep ' '` is `s.partition(" ")[2]`, and together with
`beforeFirst` it is `s.split(sep, 1)`. -/
def afterFirstSep (sep : Char) : List Char → List Char
  | [] => []
  | c :: cs => if c = sep then cs else afterFirstSep sep cs

/-- The characters before the first occurrence of `sep` (the whole list when
`sep` does not occur). -/
def beforeFirst (sep : Char) : List Char → List Char
  | [] => []
  | c :: cs => if c = sep then [] else c :: beforeFirst sep cs

/-- Python `s.split(sep)` for a single-character separator. -/
def splitAll (sep : Char) : List Char → List (List Char)
  | [] => [[]]
  | c :: cs =>
    if c = sep then [] :: splitAll sep cs
    else
      match splitAll sep cs with
      | [] => [[c]]
      | h :: t => (c :: h) :: t

/-- `[opt.strip() for opt in opts.split(";") if opt.strip()]`. -/
def optionsOf (opts : List Char) : List (List Char) :=
  ((splitAll ';' opts).map pyStrip).filter (fun o => o ≠ [])

/-- Observable outcome of the `/createpoll` handler: either a usage reply
was sent, or a poll with the given question and options was sent to the
chat transport. -/
inductive CreatePollResult where
  | usage (msg : String)
  | created (question : List Char) (options : List (List Char))
deriving DecidableEq

/-- `set.add` on the modelled `active_polls` set. -/
def registerList (pid : String) (l : List String) : List String :=
  if pid ∈ l then l else l ++ [pid]

/-- `createpoll`: take the text after the command word
(`update.message.text.partition(" ")[2]`); reply with usage when it has no
`?` or no `;`; split at the first `?`, split the rest on `;`, strip and
drop empty options; reply with usage when fewer than 2 options remain;
otherwise send the poll and add the transport-assigned poll id (`newPid`)
to `bot_data["active_polls"]`, creating the set when the key is absent. -/
def createpoll (messageText : List Char) (newPid : String)
    (s : BotState) : BotState × CreatePollResult :=
  let text := afterFirstSep ' ' messageText
  if '?' ∉ text ∨ ';' ∉ text then
    (s, .usage "Usage: /createpoll Question? Option1;Option2;Option3")
  else
    let options := optionsOf (afterFirstSep '?' text)
    if options.length < 2 then
      (s, .usage "Provide at least 2 options.")
    else
      ({ s with active_polls := some (registerList newPid (activeOf s)) },
       .created (pyStrip (beforeFirst '?' text) ++ ['?']) options)

/-! ### The `/whitelist` and `/leaderboard` queries -/

/-- `ORDER BY points DESC` comparison between rows. -/
def pointsDescRel (a b : UserRow) : Prop := b.points ≤ a.points

instance : DecidableRel pointsDescRel := fun a b =>
  inferInstanceAs (Decidable (b.points ≤ a.points))

instance : IsTotal UserRow pointsDescRel :=
  ⟨fun a b => le_total b.points a.points⟩

instance : IsTrans UserRow pointsDescRel :=
  ⟨fun _ _ _ hab hbc => le_trans hbc hab⟩

/-- The rows `SELECT ... FROM user_points WHERE points >= t ORDER BY points
DESC` ranges over, before column projection. -/
def whitelistRows (t : Int) (s : BotState) : List UserRow :=
  List.insertionSort pointsDescRel
    (s.user_points.filter (fun r => t ≤ r.points))

/-- The `/whitelist` query result: `(user_id, username)` pairs of all users
with `points >= t`, points-descending. -/
def whitelist_query (t : Int) (s : BotState) : List (Int × String) :=
  (whitelistRows t s).map (fun r => (r.user_id, r.username))

/-- The `/leaderboard` query result:
`SELECT username, points FROM user_points ORDER BY points DESC LIMIT 10`. -/
def leaderboard_query (s : BotState) : List (String × Int) :=
  ((List.insertionSort pointsDescRel s.user_points).take 10).map
    (fun r => (r.username, r.points))

/-! ### Events and the handler dispatch loop -/

/-- One inbound update, as dispatched by the framework to the registered
handlers.  Command events other than `/createpoll` only read the store. -/
inductive Event where
  | createPollMsg (messageText : List Char) (newPid : String)
  | pollAnswer (pid : String) (uid : Int) (username : Option String) (firstName : String)
  | startMsg
  | scoreMsg (uid : Int)
  | leaderboardMsg
  | whitelistMsg (arg : Option String)

/-- Effect of handling one event on the bot state.  `/start`, `/score`,
`/leaderboard` and `/whitelist` only read the store and reply. -/
def stepEvent (s : BotState) : Event → BotState
  | .createPollMsg text newPid => (createpoll text newPid s).1
  | .pollAnswer pid uid username firstName =>
      handle_poll_answer pid uid username firstName s
  | .startMsg => s
  | .scoreMsg _ => s
  | .leaderboardMsg => s
  | .whitelistMsg _ => s

/-- Handling a sequence of events, oldest first. -/
def runEvents (evs : List Event) (s : BotState) : BotState :=
  evs.foldl stepEvent s

/-! ### Derived observers used by the stated properties -/

/-- The poll ids of the credited answer records of user `uid`. -/
def creditedPollsFor (uid : Int) (ans : List (String × Int)) : List String :=
  (ans.filter (fun q => q.2 == uid)).map Prod.fst

/-- The number of distinct polls for which a credited answer record
`(poll_id, uid)` exists. -/
def distinctCreditedCount (uid : Int) (s : BotState) : Nat :=
  (creditedPollsFor uid s.poll_answers).toFinset.card

/-- The points-accounting relation of §8 of the spec: every user's stored
points equal `POINTS_PER_POLL` times their number of distinct credited
polls. -/
def PointsInv (s : BotState) : Prop :=
  ∀ uid : Int,
    get_points uid s.user_points
      = POINTS_PER_POLL * (distinctCreditedCount uid s : Int)

/-! ### Helper lemmas about `add_point` -/

/-- The in-place `ON CONFLICT` update used by `add_point`. -/
def updRow (uid : Int) (un : String) (r : UserRow) : UserRow :=
  if r.user_id = uid then
    { r with points := r.points + POINTS_PER_POLL, username := un }
  else r

lemma updRow_user_id (uid : Int) (un : String) (r : UserRow) :
    (updRow uid un r).user_id = r.user_id := by
  unfold updRow; split <;> rfl

lemma add_point_eq (uid : Int) (un : String) (rows : List UserRow) :
    add_point uid un rows =
      if rows.any (fun r => r.user_id == uid) then rows.map (updRow uid un)
      else rows ++ [{ user_id := uid, username := un, points := POINTS_PER_POLL }] := by
  rfl

lemma find?_user_map_updRow (uid v : Int) (un : String) (rows : List UserRow) :
    (rows.map (updRow uid un)).find? (fun r => r.user_id == v)
      = (rows.find? (fun r => r.user_id == v)).map (updRow uid un) := by
  rw [List.find?_map]
  have hp : ((fun r : UserRow => r.user_id == v) ∘ updRow uid un)
      = fun r : UserRow => r.user_id == v := by
    funext r
    simp [Function.comp, updRow_user_id]
  rw [hp]

lemma find?_user_of_no_record {uid : Int} {rows : List UserRow}
    (h : rows.any (fun r => r.user_id == uid) = false) :
    rows.find? (fun r => r.user_id == uid) = none := by
  rw [List.find?_eq_none]
  intro x hx
  exact fun hc => (List.any_eq_false.mp h x hx) hc

lemma get_points_add_point_self (uid : Int) (un : String) (rows : List UserRow) :
    get_points uid (add_point uid un rows) = get_points uid rows + POINTS_PER_POLL := by
  rw [add_point_eq]
  by_cases h : rows.any (fun r => r.user_id == uid)
  · rw [if_pos h]
    unfold get_points
    rw [find?_user_map_updRow]
    cases hf : rows.find? (fun r => r.user_id == uid) with
    | none =>
      exfalso
      rcases List.any_eq_true.mp h with ⟨x, hx, hc⟩
      exact absurd hc (List.find?_eq_none.mp hf x hx)
    | some r0 =>
      have hu : r0.user_id = uid := by simpa using List.find?_some hf
      simp [updRow, hu]
  · rw [if_neg (by simpa using h)]
    unfold get_points
    rw [List.find?_append, find?_user_of_no_record (by simpa using h)]
    simp

lemma get_points_add_point_other {v uid : Int} (hv : v ≠ uid) (un : String)
    (rows : List UserRow) :
    get_points v (add_point uid un rows) = get_points v rows := by
  rw [add_point_eq]
  by_cases h : rows.any (fun r => r.user_id == uid)
  · rw [if_pos h]
    unfold get_points
    rw [find?_user_map_updRow]
    cases hf : rows.find? (fun r => r.user_id == v) with
    | none => simp
    | some r0 =>
      have hu : r0.user_id = v := by simpa using List.find?_some hf
      have : updRow uid un r0 = r0 := by
        unfold updRow
        rw [if_neg (by rw [hu]; exact hv)]
      simp [this]
  · rw [if_neg (by simpa using h)]
    unfold get_points
    rw [List.find?_append]
    have hone : [({ user_id := uid, username := un, points := POINTS_PER_POLL } :
        UserRow)].find? (fun r => r.user_id == v) = none := by
      simp [Ne.symm hv]
    rw [hone]
    simp

lemma get_name_add_point_self (uid : Int) (un : String) (rows : List UserRow) :
    get_name uid (add_point uid un rows) = some un := by
  rw [add_point_eq]
  by_cases h : rows.any (fun r => r.user_id == uid)
  · rw [if_pos h]
    unfold get_name
    rw [find?_user_map_updRow]
    cases hf : rows.find? (fun r => r.user_id == uid) with
    | none =>
      exfalso
      rcases List.any_eq_true.mp h with ⟨x, hx, hc⟩
      exact absurd hc (List.find?_eq_none.mp hf x hx)
    | some r0 =>
      have hu : r0.user_id = uid := by simpa using List.find?_some hf
      simp [updRow, hu]
  · rw [if_neg (by simpa using h)]
    unfold get_name
    rw [List.find?_append, find?_user_of_no_record (by simpa using h)]
    simp

lemma get_name_add_point_other {v uid : Int} (hv : v ≠ uid) (un : String)
    (rows : List UserRow) :
    get_name v (add_point uid un rows) = get_name v rows := by
  rw [add_point_eq]
  by_cases h : rows.any (fun r => r.user_id == uid)
  · rw [if_pos h]
    unfold get_name
    rw [find?_user_map_updRow]
    cases hf : rows.find? (fun r => r.user_id == v) with
    | none => simp
    | some r0 =>
      have hu : r0.user_id = v := by simpa using List.find?_some hf
      have : updRow uid un r0 = r0 := by
        unfold updRow
        rw [if_neg (by rw [hu]; exact hv)]
      simp [this]
  · rw [if_neg (by simpa using h)]
    unfold get_name
    rw [List.find?_append]
    have hone : [({ user_id := uid, username := un, points := POINTS_PER_POLL } :
        UserRow)].find? (fun r => r.user_id == v) = none := by
      simp [Ne.symm hv]
    rw [hone]
    simp

lemma hasRecord_add_point (uid : Int) (un : String) (rows : List UserRow) :
    hasRecord uid (add_point uid un rows) = true := by
  rw [add_point_eq]
  by_cases h : rows.any (fun r => r.user_id == uid)
  · rw [if_pos h]
    unfold hasRecord
    rw [List.any_map]
    have hp : ((fun r : UserRow => r.user_id == uid) ∘ updRow uid un)
        = fun r : UserRow => r.user_id == uid := by
      funext r
      simp [Function.comp, updRow_user_id]
    rw [hp]
    exact h
  · rw [if_neg (by simpa using h)]
    unfold hasRecord
    rw [List.any_append]
    simp

lemma get_points_of_no_record {uid : Int} {rows : List UserRow}
    (h : hasRecord uid rows = false) : get_points uid rows = 0 := by
  unfold get_points
  rw [find?_user_of_no_record h]
  rfl

/-! ### Helper lemmas about `poll_answers` and the handler -/

lemma mem_creditedPollsFor (p : String) (uid : Int) (ans : List (String × Int)) :
    p ∈ creditedPollsFor uid ans ↔ (p, uid) ∈ ans := by
  unfold creditedPollsFor
  simp only [List.mem_map, List.mem_filter, beq_iff_eq]
  constructor
  · rintro ⟨⟨a, b⟩, ⟨hmem, hb⟩, ha⟩
    cases ha
    cases hb
    exact hmem
  · intro h
    exact ⟨(p, uid), ⟨h, rfl⟩, rfl⟩

lemma creditedPollsFor_append_self (pid : String) (uid : Int)
    (ans : List (String × Int)) :
    creditedPollsFor uid (ans ++ [(pid, uid)]) = creditedPollsFor uid ans ++ [pid] := by
  unfold creditedPollsFor
  rw [List.filter_append, List.map_append]
  simp

lemma creditedPollsFor_append_other {v uid : Int} (hv : v ≠ uid) (pid : String)
    (ans : List (String × Int)) :
    creditedPollsFor v (ans ++ [(pid, uid)]) = creditedPollsFor v ans := by
  unfold creditedPollsFor
  rw [List.filter_append]
  have : ([(pid, uid)] : List (String × Int)).filter (fun q => q.2 == v) = [] := by
    simp [Ne.symm hv]
  rw [this, List.append_nil]

lemma toFinset_card_append_of_not_mem {l : List String} {p : String} (h : p ∉ l) :
    (l ++ [p]).toFinset.card = l.toFinset.card + 1 := by
  rw [List.toFinset_append]
  have h1 : ([p] : List String).toFinset = {p} := by simp
  rw [h1, Finset.union_comm, ← Finset.insert_eq,
    Finset.card_insert_of_not_mem (by simpa using h)]

lemma handle_not_active {pid : String} {s : BotState} (uid : Int)
    (un : Option String) (fn : String) (h : pid ∉ activeOf s) :
    handle_poll_answer pid uid un fn s = s := by
  unfold handle_poll_answer
  rw [if_pos h]

lemma handle_answered {pid : String} {uid : Int} {s : BotState}
    (un : Option String) (fn : String)
    (h : has_answered pid uid s.poll_answers = true) :
    handle_poll_answer pid uid un fn s = s := by
  unfold handle_poll_answer
  by_cases h1 : pid ∉ activeOf s
  · rw [if_pos h1]
  · rw [if_neg h1, if_pos h]

lemma handle_new {pid : String} {uid : Int} {s : BotState}
    (un : Option String) (fn : String) (h1 : pid ∈ activeOf s)
    (h2 : has_answered pid uid s.poll_answers = false) :
    handle_poll_answer pid uid un fn s =
      { s with
        poll_answers := s.poll_answers ++ [(pid, uid)]
        user_points := add_point uid (pyOrElse un fn) s.user_points } := by
  have hnm : (pid, uid) ∉ s.poll_answers := by
    simpa [has_answered] using h2
  unfold handle_poll_answer
  rw [if_neg (by simpa using h1), if_neg (by simp [h2]), mark_answered, if_neg hnm]

lemma createpoll_state (msg : List Char) (pid : String) (s : BotState) :
    (createpoll msg pid s).1 = s ∨
      (createpoll msg pid s).1
        = { s with active_polls := some (registerList pid (activeOf s)) } := by
  unfold createpoll
  by_cases h1 : '?' ∉ afterFirstSep ' ' msg ∨ ';' ∉ afterFirstSep ' ' msg
  · left
    simp only [if_pos h1]
  · rw [if_neg h1]
    by_cases h2 : (optionsOf (afterFirstSep '?' (afterFirstSep ' ' msg))).length < 2
    · left
      simp only [if_pos h2]
    · right
      simp only [if_neg h2]

lemma pointsInv_step (s : BotState) (ev : Event) (h : PointsInv s) :
    PointsInv (stepEvent s ev) := by
  cases ev with
  | createPollMsg text pid =>
    intro v
    have hv2 := h v
    simp only [distinctCreditedCount] at hv2 ⊢
    simp only [stepEvent]
    rcases createpoll_state text pid s with hc | hc <;> rw [hc] <;> exact hv2
  | pollAnswer pid uid un fn =>
    intro v
    have hv2 := h v
    simp only [distinctCreditedCount] at hv2 ⊢
    simp only [stepEvent]
    by_cases h1 : pid ∈ activeOf s
    · cases h2 : has_answered pid uid s.poll_answers with
      | true =>
        rw [handle_answered un fn h2]
        exact hv2
      | false =>
        rw [handle_new un fn h1 h2]
        dsimp only
        by_cases hv : v = uid
        · subst hv
          have hnm : (pid, v) ∉ s.poll_answers := by
            simpa [has_answered] using h2
          have hpid : pid ∉ creditedPollsFor v s.poll_answers := fun hc =>
            hnm ((mem_creditedPollsFor pid v s.poll_answers).mp hc)
          rw [get_points_add_point_self, creditedPollsFor_append_self,
            toFinset_card_append_of_not_mem hpid, hv2]
          push_cast
          ring
        · rw [get_points_add_point_other hv, creditedPollsFor_append_other hv]
          exact hv2
    · rw [handle_not_active uid un fn h1]
      exact hv2
  | startMsg => exact h
  | scoreMsg uid => exact h
  | leaderboardMsg => exact h
  | whitelistMsg arg => exact h

lemma pointsInv_initState : PointsInv initState := by
  intro v
  simp [initState, get_points, distinctCreditedCount, creditedPollsFor]

lemma pointsInv_runEvents (evs : List Event) (s : BotState) (h : PointsInv s) :
    PointsInv (runEvents evs s) := by
  induction evs generalizing s with
  | nil => exact h
  | cons ev rest ih => exact ih (stepEvent s ev) (pointsInv_step s ev h)

/-! ### Uniqueness of `user_id` (the PRIMARY KEY constraint) -/

/-- The `user_id` column of the `user_points` table. -/
def keysOf (rows : List UserRow) : List Int := rows.map (fun r => r.user_id)

lemma keysOf_add_point_mem {uid : Int} {rows : List UserRow} (un : String)
    (h : rows.any (fun r => r.user_id == uid) = true) :
    keysOf (add_point uid un rows) = keysOf rows := by
  rw [add_point_eq, if_pos h]
  unfold keysOf
  rw [List.map_map]
  congr 1
  funext r
  exact updRow_user_id uid un r

lemma keysOf_add_point_new {uid : Int} {rows : List UserRow} (un : String)
    (h : rows.any (fun r => r.user_id == uid) = false) :
    keysOf (add_point uid un rows) = keysOf rows ++ [uid] := by
  rw [add_point_eq, if_neg (by simp [h])]
  unfold keysOf
  rw [List.map_append]
  rfl

lemma nodup_keys_add_point (uid : Int) (un : String) {rows : List UserRow}
    (h : (keysOf rows).Nodup) : (keysOf (add_point uid un rows)).Nodup := by
  cases hany : rows.any (fun r => r.user_id == uid) with
  | true =>
    rw [keysOf_add_point_mem un hany]
    exact h
  | false =>
    rw [keysOf_add_point_new un hany, List.nodup_append]
    refine ⟨h, List.nodup_singleton uid, ?_⟩
    intro a ha hb
    have ha' : a = uid := by simpa using hb
    subst ha'
    rcases List.mem_map.mp ha with ⟨r, hr, hru⟩
    exact absurd (by simpa using hru.symm ▸ rfl : (r.user_id == a) = true)
      (by simpa using List.any_eq_false.mp hany r hr)

lemma nodup_keys_step (s : BotState) (ev : Event)
    (h : (keysOf s.user_points).Nodup) :
    (keysOf (stepEvent s ev).user_points).Nodup := by
  cases ev with
  | createPollMsg text pid =>
    simp only [stepEvent]
    rcases createpoll_state text pid s with hc | hc <;> rw [hc] <;> exact h
  | pollAnswer pid uid un fn =>
    simp only [stepEvent]
    by_cases h1 : pid ∈ activeOf s
    · cases h2 : has_answered pid uid s.poll_answers with
      | true =>
        rw [handle_answered un fn h2]
        exact h
      | false =>
        rw [handle_new un fn h1 h2]
        exact nodup_keys_add_point uid (pyOrElse un fn) h
    · rw [handle_not_active uid un fn h1]
      exact h
  | startMsg => exact h
  | scoreMsg uid => exact h
  | leaderboardMsg => exact h
  | whitelistMsg arg => exact h

lemma nodup_keys_runEvents (evs : List Event) (s : BotState)
    (h : (keysOf s.user_points).Nodup) :
    (keysOf (runEvents evs s).user_points).Nodup := by
  induction evs generalizing s with
  | nil => exact h
  | cons ev rest ih => exact ih (stepEvent s ev) (nodup_keys_step s ev h)

lemma find?_user_eq_of_mem_of_nodup {rows : List UserRow} {r : UserRow} {uid : Int}
    (hnd : (keysOf rows).Nodup) (hr : r ∈ rows) (hu : r.user_id = uid) :
    rows.find? (fun x => x.user_id == uid) = some r := by
  induction rows with
  | nil => cases hr
  | cons a l ih =>
    have hnd2 : a.user_id ∉ keysOf l ∧ (keysOf l).Nodup := by
      unfold keysOf at hnd ⊢
      rw [List.map_cons, List.nodup_cons] at hnd
      exact hnd
    rcases List.mem_cons.mp hr with rfl | hr'
    · exact List.find?_cons_of_pos l (by simp [hu])
    · by_cases ha : a.user_id = uid
      · exfalso
        apply hnd2.1
        rw [ha, ← hu]
        exact List.mem_map.mpr ⟨r, hr', rfl⟩
      · rw [List.find?_cons_of_neg l (by simp [ha])]
        exact ih hnd2.2 hr'

lemma get_points_eq_of_mem_of_nodup {rows : List UserRow} {r : UserRow} {uid : Int}
    (hnd : (keysOf rows).Nodup) (hr : r ∈ rows) (hu : r.user_id = uid) :
    get_points uid rows = r.points := by
  unfold get_points
  rw [find?_user_eq_of_mem_of_nodup hnd hr hu]
  rfl

/-! ### Claim theorems -/

/-- C1: after any sequence of handled events starting from the fresh state,
every user's stored points equal `POINTS_PER_POLL` times the number of
distinct polls for which a credited answer record `(poll_id, u)` exists;
the relation is preserved by every handler that mutates the store. -/
theorem c1_points_invariant (evs : List Event) : PointsInv (runEvents evs initState) :=
  pointsInv_runEvents evs initState pointsInv_initState

theorem c1_points_invariant_witness :
    get_points 1 (runEvents [Event.createPollMsg "/createpoll Q? A;B".toList "p",
        Event.pollAnswer "p" 1 none "Alice"] initState).user_points
      = POINTS_PER_POLL *
        ((distinctCreditedCount 1 (runEvents [Event.createPollMsg "/createpoll Q? A;B".toList "p",
          Event.pollAnswer "p" 1 none "Alice"] initState)) : Int) :=
  c1_points_invariant [Event.createPollMsg "/createpoll Q? A;B".toList "p",
    Event.pollAnswer "p" 1 none "Alice"] 1

/-- C2: for a poll id registered as active, handling the same answer event
twice equals handling it once (the second run changes nothing), and when the
pair was not yet credited the single run raises that user's points by
exactly `POINTS_PER_POLL`. -/
theorem c2_duplicate_answer_idempotent (pid : String) (uid : Int) (un : Option String)
    (fn : String) (s : BotState) (hact : pid ∈ activeOf s) :
    handle_poll_answer pid uid un fn (handle_poll_answer pid uid un fn s)
      = handle_poll_answer pid uid un fn s ∧
    (has_answered pid uid s.poll_answers = false →
      get_points uid (handle_poll_answer pid uid un fn s).user_points
        = get_points uid s.user_points + POINTS_PER_POLL) := by
  constructor
  · cases h2 : has_answered pid uid s.poll_answers with
    | true =>
      rw [handle_answered un fn h2]
      exact handle_answered un fn h2
    | false =>
      rw [handle_new un fn hact h2]
      apply handle_answered un fn
      show has_answered pid uid (s.poll_answers ++ [(pid, uid)]) = true
      simp [has_answered]
  · intro h2
    rw [handle_new un fn hact h2]
    exact get_points_add_point_self uid (pyOrElse un fn) s.user_points

theorem c2_duplicate_answer_idempotent_witness :
    handle_poll_answer "p" 1 none "Alice"
        (handle_poll_answer "p" 1 none "Alice" ⟨[], [], some ["p"]⟩)
      = handle_poll_answer "p" 1 none "Alice" ⟨[], [], some ["p"]⟩ ∧
    get_points 1 (handle_poll_answer "p" 1 none "Alice" ⟨[], [], some ["p"]⟩).user_points
      = get_points 1 (⟨[], [], some ["p"]⟩ : BotState).user_points + POINTS_PER_POLL :=
  ⟨(c2_duplicate_answer_idempotent "p" 1 none "Alice" ⟨[], [], some ["p"]⟩ (by decide)).1,
   (c2_duplicate_answer_idempotent "p" 1 none "Alice" ⟨[], [], some ["p"]⟩ (by decide)).2
     (by decide)⟩

/-- C4: an answer event whose poll id is not in the active-poll set leaves
both store relations unchanged. -/
theorem c4_unknown_poll_frame (pid : String) (uid : Int) (un : Option String)
    (fn : String) (s : BotState) (h : pid ∉ activeOf s) :
    (handle_poll_answer pid uid un fn s).user_points = s.user_points ∧
    (handle_poll_answer pid uid un fn s).poll_answers = s.poll_answers := by
  rw [handle_not_active uid un fn h]
  exact ⟨rfl, rfl⟩

theorem c4_unknown_poll_frame_witness :
    (handle_poll_answer "q" 2 none "Bob" ⟨[], [], some ["p"]⟩).user_points
      = (⟨[], [], some ["p"]⟩ : BotState).user_points ∧
    (handle_poll_answer "q" 2 none "Bob" ⟨[], [], some ["p"]⟩).poll_answers
      = (⟨[], [], some ["p"]⟩ : BotState).poll_answers :=
  c4_unknown_poll_frame "q" 2 none "Bob" ⟨[], [], some ["p"]⟩ (by decide)

/-- C9: while the `active_polls` key has never been set in `bot_data`, the
handler sees the empty default set and every answer event is a no-op. -/
theorem c9_no_registry_frame (pid : String) (uid : Int) (un : Option String)
    (fn : String) (s : BotState) (h : s.active_polls = none) :
    activeOf s = [] ∧ handle_poll_answer pid uid un fn s = s := by
  have ha : activeOf s = [] := by simp [activeOf, h]
  exact ⟨ha, handle_not_active uid un fn (by simp [ha])⟩

theorem c9_no_registry_frame_witness :
    activeOf initState = [] ∧
    handle_poll_answer "p" 1 none "Alice" initState = initState :=
  c9_no_registry_frame "p" 1 none "Alice" initState rfl

/-- C7: `add_point` is an upsert — afterwards a record for the user exists,
its points grew by `POINTS_PER_POLL` (so a fresh record starts at
`POINTS_PER_POLL`), its username is the supplied one, and every other
user's record is untouched. -/
theorem c7_add_point_upsert (uid : Int) (un : String) (rows : List UserRow) :
    hasRecord uid (add_point uid un rows) = true ∧
    get_points uid (add_point uid un rows) = get_points uid rows + POINTS_PER_POLL ∧
    get_name uid (add_point uid un rows) = some un ∧
    (hasRecord uid rows = false →
      get_points uid (add_point uid un rows) = POINTS_PER_POLL) ∧
    (∀ v : Int, v ≠ uid →
      get_points v (add_point uid un rows) = get_points v rows ∧
      get_name v (add_point uid un rows) = get_name v rows) := by
  refine ⟨hasRecord_add_point uid un rows, get_points_add_point_self uid un rows,
    get_name_add_point_self uid un rows, ?_, ?_⟩
  · intro h
    rw [get_points_add_point_self, get_points_of_no_record h, zero_add]
  · intro v hv
    exact ⟨get_points_add_point_other hv un rows, get_name_add_point_other hv un rows⟩

theorem c7_add_point_upsert_witness :
    get_points 1 (add_point 1 "new" [⟨1, "old", 2⟩])
      = get_points 1 [⟨1, "old", 2⟩] + POINTS_PER_POLL ∧
    get_name 1 (add_point 1 "new" [⟨1, "old", 2⟩]) = some "new" ∧
    get_points 1 (add_point 1 "new" []) = POINTS_PER_POLL ∧
    get_points 2 (add_point 1 "new" [⟨1, "old", 2⟩]) = get_points 2 [⟨1, "old", 2⟩] :=
  ⟨(c7_add_point_upsert 1 "new" [⟨1, "old", 2⟩]).2.1,
   (c7_add_point_upsert 1 "new" [⟨1, "old", 2⟩]).2.2.1,
   (c7_add_point_upsert 1 "new" []).2.2.2.1 (by decide),
   ((c7_add_point_upsert 1 "new" [⟨1, "old", 2⟩]).2.2.2.2 2 (by decide)).1⟩

/-- C8: the score read returns 0 when no `user_points` record exists and
the stored points of the user's record otherwise (records are unique per
`user_id`); being a total function it never fails. -/
theorem c8_score_query (uid : Int) (s : BotState)
    (wf : (keysOf s.user_points).Nodup) :
    (hasRecord uid s.user_points = false → get_points uid s.user_points = 0) ∧
    (∀ r ∈ s.user_points, r.user_id = uid → get_points uid s.user_points = r.points) := by
  constructor
  · exact fun h => get_points_of_no_record h
  · intro r hr hu
    exact get_points_eq_of_mem_of_nodup wf hr hu

theorem c8_score_query_witness :
    get_points 2 (⟨[⟨1, "a", 3⟩], [], none⟩ : BotState).user_points = 0 ∧
    get_points 1 (⟨[⟨1, "a", 3⟩], [], none⟩ : BotState).user_points = 3 :=
  ⟨(c8_score_query 2 ⟨[⟨1, "a", 3⟩], [], none⟩ (by decide)).1 (by decide),
   (c8_score_query 1 ⟨[⟨1, "a", 3⟩], [], none⟩ (by decide)).2 ⟨1, "a", 3⟩
     (by decide) (by decide)⟩

/-- C10: the display name recorded by a point award is the answering user's
username when it is present and non-empty, and the user's first name
otherwise. -/
theorem c10_display_name_fallback (pid : String) (uid : Int) (un : Option String)
    (fn : String) (s : BotState) (h1 : pid ∈ activeOf s)
    (h2 : has_answered pid uid s.poll_answers = false) :
    ((un = none ∨ un = some "") →
      get_name uid (handle_poll_answer pid uid un fn s).user_points = some fn) ∧
    (∀ u : String, un = some u → u ≠ "" →
      get_name uid (handle_poll_answer pid uid un fn s).user_points = some u) := by
  rw [handle_new un fn h1 h2]
  constructor
  · intro hu
    rcases hu with rfl | rfl
    · rw [show (({ s with
          poll_answers := s.poll_answers ++ [(pid, uid)]
          user_points := add_point uid (pyOrElse none fn) s.user_points } :
            BotState)).user_points
        = add_point uid (pyOrElse none fn) s.user_points from rfl]
      rw [get_name_add_point_self]
      rfl
    · rw [show (({ s with
          poll_answers := s.poll_answers ++ [(pid, uid)]
          user_points := add_point uid (pyOrElse (some "") fn) s.user_points } :
            BotState)).user_points
        = add_point uid (pyOrElse (some "") fn) s.user_points from rfl]
      rw [get_name_add_point_self]
      simp [pyOrElse]
  · intro u hu hne
    subst hu
    rw [show (({ s with
        poll_answers := s.poll_answers ++ [(pid, uid)]
        user_points := add_point uid (pyOrElse (some u) fn) s.user_points } :
          BotState)).user_points
      = add_point uid (pyOrElse (some u) fn) s.user_points from rfl]
    rw [get_name_add_point_self]
    simp [pyOrElse, hne]

theorem c10_display_name_fallback_witness :
    get_name 1 (handle_poll_answer "p" 1 (some "") "Bob"
      ⟨[], [], some ["p"]⟩).user_points = some "Bob" :=
  (c10_display_name_fallback "p" 1 (some "") "Bob" ⟨[], [], some ["p"]⟩
    (by decide) (by decide)).1 (Or.inr rfl)

/-- C5: the threshold query returns exactly the users with `points >= t`,
sorted points-descending; with `t = 0` it returns every user with a
(nonnegative-points) record and with `t` above every score it is empty. -/
theorem c5_whitelist_threshold (t : Int) (s : BotState) :
    (∀ r : UserRow, r ∈ whitelistRows t s ↔ r ∈ s.user_points ∧ t ≤ r.points) ∧
    List.Sorted pointsDescRel (whitelistRows t s) ∧
    ((∀ r ∈ s.user_points, 0 ≤ r.points) →
      ∀ r : UserRow, r ∈ whitelistRows 0 s ↔ r ∈ s.user_points) ∧
    ((∀ r ∈ s.user_points, r.points < t) → whitelistRows t s = []) := by
  have hmem : ∀ (u : Int) (r : UserRow),
      r ∈ whitelistRows u s ↔ r ∈ s.user_points ∧ u ≤ r.points := by
    intro u r
    unfold whitelistRows
    rw [(List.perm_insertionSort pointsDescRel _).mem_iff, List.mem_filter]
    simp
  refine ⟨hmem t, List.sorted_insertionSort pointsDescRel _, ?_, ?_⟩
  · intro hnn r
    rw [hmem 0 r]
    exact ⟨fun h => h.1, fun h => ⟨h, hnn r h⟩⟩
  · intro hlt
    unfold whitelistRows
    have hf : s.user_points.filter (fun r => t ≤ r.points) = [] := by
      rw [List.filter_eq_nil_iff]
      intro r hr
      simp only [decide_eq_true_eq]
      exact not_le.mpr (hlt r hr)
    rw [hf]
    rfl

theorem c5_whitelist_threshold_witness :
    whitelistRows 5 ⟨[⟨1, "a", 3⟩], [], none⟩ = [] ∧
    (⟨1, "a", 3⟩ : UserRow) ∈ whitelistRows 0 ⟨[⟨1, "a", 3⟩], [], none⟩ :=
  ⟨(c5_whitelist_threshold 5 ⟨[⟨1, "a", 3⟩], [], none⟩).2.2.2 (by decide),
   ((c5_whitelist_threshold 5 ⟨[⟨1, "a", 3⟩], [], none⟩).2.2.1 (by decide)
     ⟨1, "a", 3⟩).mpr (by decide)⟩

/-- C6: the leaderboard query returns at most 10 `(username, points)`
entries, sorted points-descending, and fewer than 10 only when fewer than
10 users have records. -/
theorem c6_leaderboard_top10 (s : BotState) :
    (leaderboard_query s).length ≤ 10 ∧
    List.Pairwise (fun a b : String × Int => b.2 ≤ a.2) (leaderboard_query s) ∧
    ((leaderboard_query s).length < 10 → s.user_points.length < 10) := by
  have hlen : (leaderboard_query s).length = min 10 s.user_points.length := by
    unfold leaderboard_query
    rw [List.length_map, List.length_take,
      (List.perm_insertionSort pointsDescRel s.user_points).length_eq]
  refine ⟨?_, ?_, ?_⟩
  · rw [hlen]
    exact min_le_left _ _
  · unfold leaderboard_query
    rw [List.pairwise_map]
    have hs : List.Pairwise pointsDescRel
        (List.insertionSort pointsDescRel s.user_points) :=
      List.sorted_insertionSort pointsDescRel s.user_points
    exact hs.sublist (List.take_sublist 10 _)
  · rw [hlen]
    intro h
    rcases min_lt_iff.mp h with h1 | h1
    · exact absurd h1 (lt_irrefl 10)
    · exact h1

theorem c6_leaderboard_top10_witness :
    (leaderboard_query ⟨[⟨1, "a", 3⟩, ⟨2, "b", 5⟩], [], none⟩).length < 10 ∧
    (⟨[⟨1, "a", 3⟩, ⟨2, "b", 5⟩], [], none⟩ : BotState).user_points.length < 10 :=
  ⟨by decide,
   (c6_leaderboard_top10 ⟨[⟨1, "a", 3⟩, ⟨2, "b", 5⟩], [], none⟩).2.2 (by decide)⟩

/-! ### `/createpoll` validation (C3) -/

lemma createpoll_invalid_sep {msg : List Char} (pid : String) (s : BotState)
    (h : '?' ∉ afterFirstSep ' ' msg ∨ ';' ∉ afterFirstSep ' ' msg) :
    createpoll msg pid s
      = (s, .usage "Usage: /createpoll Question? Option1;Option2;Option3") := by
  simp only [createpoll]
  rw [if_pos h]

lemma createpoll_short_options {msg : List Char} (pid : String) (s : BotState)
    (h1 : ¬('?' ∉ afterFirstSep ' ' msg ∨ ';' ∉ afterFirstSep ' ' msg))
    (h2 : (optionsOf (afterFirstSep '?' (afterFirstSep ' ' msg))).length < 2) :
    createpoll msg pid s = (s, .usage "Provide at least 2 options.") := by
  simp only [createpoll]
  rw [if_neg h1, if_pos h2]

lemma createpoll_success {msg : List Char} (pid : String) (s : BotState)
    (h1 : ¬('?' ∉ afterFirstSep ' ' msg ∨ ';' ∉ afterFirstSep ' ' msg))
    (h2 : ¬(optionsOf (afterFirstSep '?' (afterFirstSep ' ' msg))).length < 2) :
    createpoll msg pid s
      = ({ s with active_polls := some (registerList pid (activeOf s)) },
         .created (pyStrip (beforeFirst '?' (afterFirstSep ' ' msg)) ++ ['?'])
           (optionsOf (afterFirstSep '?' (afterFirstSep ' ' msg)))) := by
  simp only [createpoll]
  rw [if_neg h1, if_neg h2]

/-- The validation the code actually performs on the command text: the part
after the command word must contain a `?` and a `;`, and splitting the part
after the first `?` on `;` must leave at least 2 non-empty options.  (The
question part before the `?` is not checked and may be empty.) -/
def createpoll_valid (messageText : List Char) : Bool :=
  decide ('?' ∈ afterFirstSep ' ' messageText)
    && decide (';' ∈ afterFirstSep ' ' messageText)
    && decide (2 ≤ (optionsOf (afterFirstSep '?' (afterFirstSep ' ' messageText))).length)

/-- Whether the handler answered with a usage message instead of a poll. -/
def isUsageReply : CreatePollResult → Bool
  | .usage _ => true
  | .created _ _ => false

/-- C3 (counterexample): on the command `/createpoll ?A;B` the question is
empty after stripping, yet no usage reply is sent — the poll is created and
the state is mutated.  The code therefore does not validate a non-empty
question, refuting the claim as stated. -/
theorem c3_counterexample :
    pyStrip (beforeFirst '?' (afterFirstSep ' ' "/createpoll ?A;B".toList)) = [] ∧
    (createpoll "/createpoll ?A;B".toList "p1" initState).1 ≠ initState ∧
    (createpoll "/createpoll ?A;B".toList "p1" initState).2
      = CreatePollResult.created ['?'] [['A'], ['B']] :=
  ⟨by decide, by decide, by decide⟩

/-- C3 (amended): `createpoll` validates that the command text contains a
`?` and a `;` and yields at least 2 non-empty options (the question may be
empty); on every input failing this check it replies with a usage message
and mutates no state, and on every input passing it it creates the poll and
registers the returned poll id. -/
theorem c3_createpoll_validation (msg : List Char) (pid : String) (s : BotState) :
    (createpoll_valid msg = false →
      (createpoll msg pid s).1 = s ∧ isUsageReply (createpoll msg pid s).2 = true) ∧
    (createpoll_valid msg = true →
      (createpoll msg pid s).1
          = { s with active_polls := some (registerList pid (activeOf s)) } ∧
        isUsageReply (createpoll msg pid s).2 = false) := by
  by_cases h1 : '?' ∉ afterFirstSep ' ' msg ∨ ';' ∉ afterFirstSep ' ' msg
  · have hv : createpoll_valid msg = false := by
      unfold createpoll_valid
      rcases h1 with h | h
      · simp [h]
      · simp [h]
    rw [createpoll_invalid_sep pid s h1]
    constructor
    · intro _
      exact ⟨rfl, rfl⟩
    · intro hvt
      rw [hv] at hvt
      cases hvt
  · by_cases h2 : (optionsOf (afterFirstSep '?' (afterFirstSep ' ' msg))).length < 2
    · have hv : createpoll_valid msg = false := by
        unfold createpoll_valid
        have h2' : ¬ 2 ≤ (optionsOf (afterFirstSep '?' (afterFirstSep ' ' msg))).length :=
          not_le.mpr h2
        simp [h2']
      rw [createpoll_short_options pid s h1 h2]
      constructor
      · intro _
        exact ⟨rfl, rfl⟩
      · intro hvt
        rw [hv] at hvt
        cases hvt
    · have hv : createpoll_valid msg = true := by
        unfold createpoll_valid
        push_neg at h1
        have h2' : 2 ≤ (optionsOf (afterFirstSep '?' (afterFirstSep ' ' msg))).length :=
          not_lt.mp h2
        simp [h1.1, h1.2, h2']
      rw [createpoll_success pid s h1 h2]
      constructor
      · intro hvf
        rw [hv] at hvf
        cases hvf
      · intro _
        exact ⟨rfl, rfl⟩

theorem c3_createpoll_validation_witness :
    createpoll_valid "/createpoll Q? A;B".toList = true ∧
    (createpoll "/createpoll Q? A;B".toList "p1" initState).1
      = { initState with active_polls := some (registerList "p1" (activeOf initState)) } ∧
    createpoll_valid "/createpoll nope".toList = false ∧
    (createpoll "/createpoll nope".toList "p2" initState).1 = initState :=
  ⟨by decide,
   ((c3_createpoll_validation "/createpoll Q? A;B".toList "p1" initState).2 (by decide)).1,
   by decide,
   ((c3_createpoll_validation "/createpoll nope".toList "p2" initState).1 (by decide)).1⟩
